import Mathlib

/-!
Verification of the SI201 music-collaboration pipeline.

The development shallowly embeds the Python sources (database_setup.py,
gather_deezer.py, gather_musicbrainz.py, gather_itunes.py, gather_census.py,
process_data.py, analyze_visualize.py) into Lean: the SQLite tables become
lists of row records, cursor loops become structural recursion, and the
numeric SQL types become Int / Rat.  HTTP calls are modelled by passing the
sequence of per-attempt outcomes (or the parsed payload) as an explicit
argument.
-/

namespace SI201

/-! ## String helpers

Python `needle in hay` substring containment and `str.lower`, modelled over
the character list of a `String`.  `Char.toLower` agrees with Python `lower`
on ASCII, which covers every variant string in the sources.
-/

/-- Boolean test that the first list is a prefix of the second. -/
def listPrefixCheck : List Char → List Char → Bool
  | [], _ => true
  | _ :: _, [] => false
  | a :: as, b :: bs => a == b && listPrefixCheck as bs

/-- Boolean test that the first list occurs contiguously inside the second. -/
def listSubCheck : List Char → List Char → Bool
  | [], _ => true
  | _ :: _, [] => false
  | n :: ns, h :: t => listPrefixCheck (n :: ns) (h :: t) || listSubCheck (n :: ns) t

/-- Python `needle in hay` on strings. -/
def strContains (hay needle : String) : Bool :=
  listSubCheck needle.data hay.data

/-- Python `str.lower` (ASCII case folding). -/
def pyLower (s : String) : String :=
  ⟨s.data.map Char.toLower⟩

theorem listPrefixCheck_self (l : List Char) : listPrefixCheck l l = true := by
  induction l with
  | nil => rfl
  | cons a as ih => simp [listPrefixCheck, ih]

theorem strContains_self (s : String) : strContains s s = true := by
  unfold strContains
  cases h : s.data with
  | nil => rfl
  | cons a t => simp [listSubCheck, listPrefixCheck_self]

/-- If `v` does not occur in `low` then `v` cannot equal `low`. -/
theorem beq_false_of_strContains_false {low v : String}
    (h : strContains low v = false) : (v == low) = false := by
  by_cases hb : (v == low) = true
  · have hv : v = low := by
      cases low with
      | mk ld =>
        cases v with
        | mk vd => exact eq_of_beq hb
    subst hv
    rw [strContains_self] at h
    cases h
  · simpa using hb

/-! ## Genre normalization (process_data.normalize_genre and
analyze_visualize.normalize_genre)

Python iterates over the `mappings` dict in insertion order and returns the
first standard genre whose variant list either contains the lowercased tag
or has a variant occurring as a substring of it; unmapped tags fall through
to `"other"`.  The input is an `Option String` because callers pass `NULL`
column values through (`if not genre_name` is true for both `None` and `""`).
-/

/-- Python `genre_lower in variants or any(v in genre_lower for v in variants)`
(list membership, then substring scan). -/
def matchesVariants (variants : List String) (low : String) : Bool :=
  variants.any (fun v => v == low) || variants.any (fun v => strContains low v)

/-- First standard genre whose variants match, else `"other"`; mirrors the
`for standard_genre, variants in mappings.items()` loop. -/
def firstGenre : List (String × List String) → String → String
  | [], _ => "other"
  | (g, vs) :: rest, low => cond (matchesVariants vs low) g (firstGenre rest low)

namespace process_data

/-- Variant table of `process_data.normalize_genre` (dict insertion order). -/
def mappings : List (String × List String) :=
  [ ("hip-hop", ["hip hop", "hip-hop", "rap", "trap", "hip hop soul"]),
    ("rock", ["rock", "alternative rock", "hard rock", "alternative metal",
              "industrial metal", "alternative"]),
    ("pop", ["pop", "art pop", "folk pop", "dance", "electropop"]),
    ("r&b", ["r&b", "contemporary r&b", "soul", "r&b/soul"]),
    ("latin", ["reggaeton", "latin urban", "latin", "música mexicana"]),
    ("country", ["country"]),
    ("electronic", ["electronic", "edm", "house", "techno"]),
    ("jazz", ["jazz"]),
    ("classical", ["classical"]) ]

/-- Embedding of `process_data.normalize_genre`. -/
def normalize_genre : Option String → String
  | none => "other"
  | some s => if s = "" then "other" else firstGenre mappings (pyLower s)

end process_data

namespace analyze_visualize

/-- Variant table of `analyze_visualize.normalize_genre` (dict insertion order). -/
def mappings : List (String × List String) :=
  [ ("hip-hop", ["hip hop", "hip-hop", "rap", "trap"]),
    ("rock", ["rock", "alternative rock", "hard rock", "alternative"]),
    ("pop", ["pop", "dance", "electropop"]),
    ("r&b", ["r&b", "contemporary r&b", "soul", "r&b/soul"]),
    ("latin", ["reggaeton", "latin", "música mexicana"]),
    ("country", ["country"]),
    ("electronic", ["electronic", "edm", "house"]) ]

/-- Embedding of `analyze_visualize.normalize_genre` (`not genre_name or
genre_name == 'Unknown'` guards the default). -/
def normalize_genre : Option String → String
  | none => "other"
  | some s => if s = "" ∨ s = "Unknown" then "other" else firstGenre mappings (pyLower s)

end analyze_visualize

/-! ## Relational data model (database_setup.create_database)

Each SQLite table of `music_collab.db` is a list of row records kept in
insertion order; `AUTOINCREMENT` / rowid columns are modelled by `next_*`
counters.  `INSERT OR IGNORE` against a uniqueness constraint is modelled by
checking the natural key before appending.
-/

/-- Row of the `tracks` table. -/
structure TrackRow where
  track_id : Nat
  deezer_id : Int
  title : String
  artist_name : String
  duration : Int
  popularity : Int
  is_collaboration : Int
  collab_indicator : Option String
  featuring_artist : Option String
deriving DecidableEq, Repr

/-- Row of the `genres` table. -/
structure GenreRow where
  genre_id : Nat
  genre_name : String
deriving DecidableEq, Repr

/-- Row of the `track_genres` junction table. -/
structure TrackGenreRow where
  track_id : Nat
  genre_id : Nat
deriving DecidableEq, Repr

/-- Row of the `itunes_tracks` table. -/
structure ItunesRow where
  itunes_id : Int
  track_id : Nat
  itunes_name : Option String
  itunes_artist : Option String
  itunes_price : Option Rat
  itunes_genre : Option String
  release_date : String
deriving DecidableEq, Repr

/-- Row of the `collaboration_stats` table. -/
structure StatRow where
  stat_id : Nat
  genre_id : Nat
  is_collaboration : Int
  track_count : Nat
  avg_popularity : Rat
  median_popularity : Rat
deriving DecidableEq, Repr

/-- The `music_collab.db` database state. -/
structure DB where
  tracks : List TrackRow
  genres : List GenreRow
  track_genres : List TrackGenreRow
  itunes_tracks : List ItunesRow
  collaboration_stats : List StatRow
  next_track_id : Nat := 1
  next_genre_id : Nat := 1
  next_stat_id : Nat := 1
deriving DecidableEq, Repr

/-- A freshly created database (create_database on a new file). -/
def DB.empty : DB := ⟨[], [], [], [], [], 1, 1, 1⟩

/-- The statement `INSERT OR IGNORE INTO genres (genre_name) VALUES (?)`
(issued verbatim by both `gather_deezer.store_genre_for_track` and
`gather_musicbrainz.assign_genres_to_tracks`). -/
def insertGenreIfAbsent (db : DB) (name : String) : DB :=
  if db.genres.any (fun g => g.genre_name == name) then db
  else { db with genres := db.genres ++ [⟨db.next_genre_id, name⟩],
                 next_genre_id := db.next_genre_id + 1 }

/-- The statement `INSERT OR IGNORE INTO track_genres (track_id, genre_id)
VALUES (?, ?)`, returning whether a row was stored (`cursor.rowcount > 0`). -/
def insertJunction (db : DB) (tid gid : Nat) : DB × Bool :=
  if db.track_genres.any (fun tg => tg.track_id == tid && tg.genre_id == gid)
  then (db, false)
  else ({ db with track_genres := db.track_genres ++ [⟨tid, gid⟩] }, true)

/-- The statement sequence shared verbatim by
`gather_deezer.store_genre_for_track` and the loop body of
`gather_musicbrainz.assign_genres_to_tracks`: `INSERT OR IGNORE` into
`genres`, `SELECT genre_id` (first match), then `INSERT OR IGNORE` into
`track_genres`; returns whether the junction row was stored. -/
def linkTrackToGenre (db : DB) (track_id : Nat) (genre : String) : DB × Bool :=
  let db := insertGenreIfAbsent db genre
  match db.genres.find? (fun g => g.genre_name == genre) with
  | none => (db, false)
  | some g => insertJunction db track_id g.genre_id

/-! ## Deezer ingestion (gather_deezer.py)

`DEBUG_MODE` and `MAX_ITEMS_PER_RUN = 200 if DEBUG_MODE else 25` are module
globals in the source; the debug flag is threaded as an argument so the
production value is expressible.  Collaboration detection
(`detect_collaboration`) is a pure regex scan of the title; its result only
populates stored column values, so the ingestion theorems quantify over an
arbitrary detection function `detect : title -> (is_collab, indicator,
featuring_artist)`.
-/

namespace gather_deezer

/-- The module global `DEBUG_MODE` as committed in the source. -/
def DEBUG_MODE : Bool := true

/-- Embedding of `MAX_ITEMS_PER_RUN = 200 if DEBUG_MODE else 25`. -/
def MAX_ITEMS_PER_RUN (debug : Bool) : Nat := if debug then 200 else 25

/-- An input track dict as produced by `fetch_deezer_charts` (the optional
`genre` key only appears in simulated data). -/
structure TrackRec where
  deezer_id : Int
  title : String
  artist_name : String
  duration : Int
  popularity : Int
  genre : Option String := none
deriving DecidableEq, Repr

/-- Result type of `detect_collaboration`. -/
abbrev Detect := String → Int × Option String × Option String

/-- Embedding of `store_genre_for_track`: `INSERT OR IGNORE` into `genres`,
`SELECT genre_id` (first match), then `INSERT OR IGNORE` into `track_genres`. -/
def store_genre_for_track (db : DB) (track_id : Nat) (genre_name : String) : DB :=
  (linkTrackToGenre db track_id genre_name).1

/-- One iteration of the `for track in tracks[:MAX_ITEMS_PER_RUN]` loop in
`store_tracks`: `INSERT OR IGNORE INTO tracks` keyed by the `deezer_id`
UNIQUE constraint, then on a real insert (`cursor.rowcount > 0`) the
optional genre link.  Returns the new state and whether a row was stored. -/
def storeTrackStep (detect : Detect) (db : DB) (t : TrackRec) : DB × Bool :=
  let d := detect t.title
  if db.tracks.any (fun row => row.deezer_id == t.deezer_id) then (db, false)
  else
    let tid := db.next_track_id
    let db := { db with
      tracks := db.tracks ++
        [⟨tid, t.deezer_id, t.title, t.artist_name, t.duration, t.popularity,
          d.1, d.2.1, d.2.2⟩],
      next_track_id := tid + 1 }
    match t.genre with
    | some g => (store_genre_for_track db tid g, true)
    | none => (db, true)

/-- The body of the `store_tracks` insertion loop, accumulating
`stored_count`. -/
def storeTracksLoop (detect : Detect) : DB → List TrackRec → DB × Nat
  | db, [] => (db, 0)
  | db, t :: ts =>
      let r := storeTrackStep detect db t
      let rest := storeTracksLoop detect r.1 ts
      (rest.1, (if r.2 then 1 else 0) + rest.2)

/-- Embedding of `store_tracks` (the trailing `SELECT COUNT` queries read
state only; `conn.commit()` precedes `conn.close()`). -/
def store_tracks (detect : Detect) (debug : Bool) (db : DB) (tracks : List TrackRec) :
    DB × Nat :=
  storeTracksLoop detect db (tracks.take (MAX_ITEMS_PER_RUN debug))

end gather_deezer

/-! ## iTunes ingestion (gather_itunes.py) -/

namespace gather_itunes

/-- Parsed payload of a successful `search_itunes` match. -/
structure ItunesData where
  itunes_id : Int
  itunes_name : Option String
  itunes_artist : Option String
  itunes_price : Option Rat
  itunes_genre : Option String
  release_date : String
deriving DecidableEq, Repr

/-- Embedding of `store_itunes_track`: `INSERT OR IGNORE INTO itunes_tracks`
keyed by the `itunes_id` primary key; returns whether a row was stored
(`cursor.rowcount > 0`). -/
def store_itunes_track (db : DB) (track_id : Nat) (itunes_data : Option ItunesData) :
    DB × Bool :=
  match itunes_data with
  | none => (db, false)
  | some d =>
      if db.itunes_tracks.any (fun row => row.itunes_id == d.itunes_id) then (db, false)
      else
        ({ db with itunes_tracks := db.itunes_tracks ++
            [⟨d.itunes_id, track_id, d.itunes_name, d.itunes_artist, d.itunes_price,
              d.itunes_genre, d.release_date⟩] }, true)

end gather_itunes

/-! ## MusicBrainz genre enrichment (gather_musicbrainz.py)

`fetch_genre_for_artist` is an HTTP call; `assign_genres_to_tracks` takes the
per-artist lookup result as a function argument.  `guess_genre_from_name` is
a pure keyword scan and is embedded directly.
-/

namespace gather_musicbrainz

/-- Embedding of `MAX_ITEMS_PER_RUN = 100 if DEBUG_MODE else 25`. -/
def MAX_ITEMS_PER_RUN (debug : Bool) : Nat := if debug then 100 else 25

/-- Keyword table of `guess_genre_from_name` (dict insertion order). -/
def genre_hints : List (String × List String) :=
  [ ("hip-hop", ["drake", "eminem", "kendrick", "travis", "post malone",
                 "kanye", "jay-z", "lil", "bad bunny", "migos", "cardi"]),
    ("rock", ["imagine dragons", "coldplay", "linkin", "queen", "beatles",
              "chili", "nirvana", "foo", "green day", "ac/dc", "metallica"]),
    ("r&b", ["weeknd", "rihanna", "beyoncé", "beyonce", "frank ocean",
             "sza", "usher", "chris brown", "alicia"]),
    ("country", ["combs", "wallen", "stapleton", "carrie", "blake",
                 "kenny", "dolly", "garth"]),
    ("pop", ["swift", "sheeran", "grande", "bieber", "eilish",
             "mars", "dua lipa", "harry styles", "katy perry", "lady gaga"]),
    ("electronic", ["daft punk", "avicii", "marshmello", "calvin harris",
                    "deadmau5", "skrillex", "tiesto"]),
    ("jazz", ["miles davis", "coltrane", "monk", "armstrong", "ella"]),
    ("classical", ["beethoven", "mozart", "bach", "chopin", "vivaldi"]) ]

/-- First genre with a keyword occurring in the artist name, else `'pop'`. -/
def firstHint : List (String × List String) → String → String
  | [], _ => "pop"
  | (g, ks) :: rest, low => cond (ks.any (fun k => strContains low k)) g (firstHint rest low)

/-- Embedding of `guess_genre_from_name`. -/
def guess_genre_from_name (artist_name : String) : String :=
  firstHint genre_hints (pyLower artist_name)

/-- Resolution of the genre in `assign_genres_to_tracks`: the MusicBrainz
result, or the keyword guess when the result is `None` or empty
(`if not genre`). -/
def resolveGenre (fetched : Option String) (artist_name : String) : String :=
  match fetched with
  | some g => if g = "" then guess_genre_from_name artist_name else g
  | none => guess_genre_from_name artist_name

/-- One iteration of the `for track_id, artist_name in tracks_to_process`
loop in `assign_genres_to_tracks`: resolve the genre (API result or fallback
guess), `INSERT OR IGNORE` into `genres`, `SELECT genre_id`, then
`INSERT OR IGNORE` into `track_genres`.  Returns whether the junction row
was stored (`cursor.rowcount > 0`). -/
def assignGenreStep (fetched : Option String) (db : DB) (track_id : Nat)
    (artist_name : String) : DB × Bool :=
  linkTrackToGenre db track_id (resolveGenre fetched artist_name)

/-- The `SELECT ... WHERE tg.genre_id IS NULL LIMIT ?` work list: tracks with
no junction row, in table order, capped at the per-run maximum. -/
def tracksWithoutGenres (debug : Bool) (db : DB) : List TrackRow :=
  (db.tracks.filter
    (fun t => !(db.track_genres.any (fun tg => tg.track_id == t.track_id)))).take
    (MAX_ITEMS_PER_RUN debug)

/-- Loop body of `assign_genres_to_tracks`, accumulating `assigned_count`.
`fetch` gives the MusicBrainz lookup result for each artist name. -/
def assignGenresLoop (fetch : String → Option String) : DB → List TrackRow → DB × Nat
  | db, [] => (db, 0)
  | db, t :: ts =>
      let r := assignGenreStep (fetch t.artist_name) db t.track_id t.artist_name
      let rest := assignGenresLoop fetch r.1 ts
      (rest.1, (if r.2 then 1 else 0) + rest.2)

/-- Embedding of `assign_genres_to_tracks` (commit precedes close; the final
`SELECT COUNT` queries read state only). -/
def assign_genres_to_tracks (fetch : String → Option String) (debug : Bool) (db : DB) :
    DB × Nat :=
  assignGenresLoop fetch db (tracksWithoutGenres debug db)

end gather_musicbrainz

/-! ## Census ingestion (gather_census.py)

The `regions` table lives in `music_income.db`.  Modelled from the spec: its
`CREATE TABLE` only exists as a schema comment in `main.py`
(`region_id (PK), region_name (UNIQUE), state, median_income, population`),
so the natural key `region_name` is taken from that comment and from the
spec's "inserts records ... keyed by a natural external identifier (e.g.,
external catalog id, name)".
-/

namespace gather_census

/-- The module global `MAX_ITEMS_PER_RUN = 25`. -/
def MAX_ITEMS_PER_RUN : Nat := 25

/-- An input region dict as produced by `fetch_census_data`. -/
structure RegionRec where
  region_name : String
  state_code : String
  median_income : Rat
  population : Int
deriving DecidableEq, Repr

/-- Row of the `regions` table (schema modelled from the spec, see above). -/
structure RegionRow where
  region_id : Nat
  region_name : String
  state_code : String
  median_income : Rat
  population : Int
deriving DecidableEq, Repr

/-- The `music_income.db` database state. -/
structure RegionsDB where
  regions : List RegionRow
  next_region_id : Nat := 1
deriving DecidableEq, Repr

/-- One `INSERT OR IGNORE INTO regions` keyed by the `region_name` natural
key. -/
def storeRegionStep (db : RegionsDB) (r : RegionRec) : RegionsDB × Bool :=
  if db.regions.any (fun row => row.region_name == r.region_name) then (db, false)
  else
    let row : RegionRow :=
      ⟨db.next_region_id, r.region_name, r.state_code, r.median_income, r.population⟩
    ({ db with regions := db.regions ++ [row],
               next_region_id := db.next_region_id + 1 }, true)

/-- Loop body of `store_regions`, accumulating `stored_count`. -/
def storeRegionsLoop : RegionsDB → List RegionRec → RegionsDB × Nat
  | db, [] => (db, 0)
  | db, r :: rs =>
      let s := storeRegionStep db r
      let rest := storeRegionsLoop s.1 rs
      (rest.1, (if s.2 then 1 else 0) + rest.2)

/-- Embedding of `store_regions`: slices `regions[start_idx:end_idx]` with
`start_idx = COUNT(regions)` and `end_idx = min(start_idx + 25, len)`. -/
def store_regions (db : RegionsDB) (regions : List RegionRec) : RegionsDB × Nat :=
  storeRegionsLoop db ((regions.drop db.regions.length).take MAX_ITEMS_PER_RUN)

end gather_census

/-! ## SQL left joins and the sqlite3 transaction discipline

A SQL `LEFT JOIN` keeps every left row, pairing it with each matching right
row or with `NULL` when none matches.  Python's `sqlite3` opens an implicit
transaction at the first data-modifying statement; `conn.commit()` makes the
pending writes durable and closing the connection without committing rolls
them back.
-/

/-- One SQL `LEFT JOIN`. -/
def leftJoin {α β : Type} (xs : List α) (ys : List β) (sel : α → β → Bool) :
    List (α × Option β) :=
  xs.flatMap (fun x =>
    match ys.filter (sel x) with
    | [] => [(x, none)]
    | ms => ms.map (fun y => (x, some y)))

/-- A sqlite3 connection: the durable database and the pending view seen by
the cursor inside the implicit transaction. -/
structure Conn where
  committed : DB
  pending : DB

/-- Embedding of `sqlite3.connect`. -/
def Conn.openDB (db : DB) : Conn := ⟨db, db⟩

/-- A data-modifying `cursor.execute`, applied to the pending view. -/
def Conn.execWrite (c : Conn) (f : DB → DB) : Conn := { c with pending := f c.pending }

/-- Embedding of `conn.commit()`. -/
def Conn.commit (c : Conn) : Conn := { c with committed := c.pending }

/-- Embedding of `conn.close()`: uncommitted writes are rolled back, so the
durable state is returned. -/
def Conn.closeDB (c : Conn) : DB := c.committed

/-! ## Statistics recomputation (process_data.calculate_collaboration_stats) -/

namespace process_data

/-- A row of the join
`tracks LEFT JOIN itunes_tracks LEFT JOIN track_genres LEFT JOIN genres`
with `COALESCE(it.itunes_genre, g.genre_name) as genre`. -/
structure CollabJoinRow where
  track_id : Nat
  popularity : Int
  is_collaboration : Int
  genre : Option String
deriving DecidableEq, Repr

/-- The join query issued by `calculate_collaboration_stats`. -/
def collabJoinRows (db : DB) : List CollabJoinRow :=
  let j1 := leftJoin db.tracks db.itunes_tracks (fun t it => it.track_id == t.track_id)
  let j2 := leftJoin j1 db.track_genres (fun p tg => tg.track_id == p.1.track_id)
  let j3 := leftJoin j2 db.genres (fun p g =>
    match p.2 with
    | some tg => g.genre_id == tg.genre_id
    | none => false)
  j3.map (fun p =>
    { track_id := p.1.1.1.track_id,
      popularity := p.1.1.1.popularity,
      is_collaboration := p.1.1.1.is_collaboration,
      genre := (p.1.1.2.bind (fun it => it.itunes_genre)).or
               (p.2.map (fun g => g.genre_name)) })

/-- Insertion sort, ascending. -/
def insertSorted (x : Int) : List Int → List Int
  | [] => [x]
  | y :: ys => if x ≤ y then x :: y :: ys else y :: insertSorted x ys

/-- Ascending sort of an integer list. -/
def sortInts (l : List Int) : List Int := l.foldr insertSorted []

/-- Embedding of `np.mean` on an integer sample, as an exact rational. -/
def ratMean (l : List Int) : Rat :=
  if l.length = 0 then 0 else ((l.foldr (· + ·) 0 : Int) : Rat) / (l.length : Rat)

/-- Embedding of `np.median` on an integer sample, as an exact rational. -/
def ratMedian (l : List Int) : Rat :=
  let s := sortInts l
  let n := s.length
  if n = 0 then 0
  else if n % 2 = 1 then ((s.getD (n / 2) 0 : Int) : Rat)
  else (((s.getD (n / 2 - 1) 0 : Int) : Rat) + ((s.getD (n / 2) 0 : Int) : Rat)) / 2

/-- Grouping key: `(normalize_genre(genre), is_collaboration)`. -/
abbrev GroupKey := String × Int

/-- Append a popularity value to its group, preserving dict insertion order
(`stats[key].append(popularity)` / fresh key at the end). -/
def addToGroups : List (GroupKey × List Int) → GroupKey → Int → List (GroupKey × List Int)
  | [], k, p => [(k, [p])]
  | (k0, ps) :: rest, k, p =>
      if k0 = k then (k0, ps ++ [p]) :: rest
      else (k0, ps) :: addToGroups rest k p

/-- The `for track_id, popularity, is_collab, genre in tracks` grouping loop. -/
def buildGroups (rows : List CollabJoinRow) : List (GroupKey × List Int) :=
  rows.foldl
    (fun gs r => addToGroups gs (normalize_genre r.genre, r.is_collaboration) r.popularity)
    []

/-- The `for (genre, is_collab), popularities in stats.items()` loop: look up
or plainly `INSERT` the genre, then `INSERT` the aggregate row.  Accumulates
`created_count`. -/
def statsInsertLoop : DB → List (GroupKey × List Int) → DB × Nat
  | db, [] => (db, 0)
  | db, (k, pops) :: rest =>
      let sel : DB × Nat :=
        match db.genres.find? (fun g => g.genre_name == k.1) with
        | some g => (db, g.genre_id)
        | none =>
            ({ db with genres := db.genres ++ [⟨db.next_genre_id, k.1⟩],
                       next_genre_id := db.next_genre_id + 1 }, db.next_genre_id)
      let db := sel.1
      let gid := sel.2
      let avg := if pops.length = 0 then 0 else ratMean pops
      let med := if pops.length = 0 then 0 else ratMedian pops
      let row : StatRow := ⟨db.next_stat_id, gid, k.2, pops.length, avg, med⟩
      let db := { db with collaboration_stats := db.collaboration_stats ++ [row],
                          next_stat_id := db.next_stat_id + 1 }
      let r := statsInsertLoop db rest
      (r.1, r.2 + 1)

/-- Embedding of `calculate_collaboration_stats`: `DELETE FROM
collaboration_stats`, the four-table join, then either an early
close-without-commit (no rows) or recomputation followed by `conn.commit()`. -/
def calculate_collaboration_stats (db : DB) : DB × Nat :=
  let c := Conn.openDB db
  let c := c.execWrite (fun d => { d with collaboration_stats := [] })
  let rows := collabJoinRows c.pending
  if rows.isEmpty then
    (c.closeDB, 0)
  else
    let r := statsInsertLoop c.pending (buildGroups rows)
    (({ c with pending := r.1 }).commit.closeDB, r.2)

end process_data

/-! ## Analysis stage (analyze_visualize.py)

`get_track_data` issues the four-table `LEFT JOIN` query and returns a
DataFrame; `main` checks `df.empty`, then the collaboration count, and only
then runs the statistical tests, the four visualizations and the report
export.  The sequence of analysis operations actually performed is recorded
as an explicit trace so that control-flow claims ("performs no join") are
statable.
-/

namespace analyze_visualize

/-- A row of the `get_track_data` query, with
`COALESCE(it.itunes_genre, g.genre_name, 'Unknown') as genre`. -/
structure TrackDataRow where
  track_id : Nat
  title : String
  artist_name : String
  popularity : Int
  is_collaboration : Int
  collab_indicator : Option String
  featuring_artist : Option String
  genre : String
deriving DecidableEq, Repr

/-- Embedding of the `get_track_data` join query. -/
def get_track_data (db : DB) : List TrackDataRow :=
  let j1 := leftJoin db.tracks db.itunes_tracks (fun t it => it.track_id == t.track_id)
  let j2 := leftJoin j1 db.track_genres (fun p tg => tg.track_id == p.1.track_id)
  let j3 := leftJoin j2 db.genres (fun p g =>
    match p.2 with
    | some tg => g.genre_id == tg.genre_id
    | none => false)
  j3.map (fun p =>
    let t := p.1.1.1
    { track_id := t.track_id,
      title := t.title,
      artist_name := t.artist_name,
      popularity := t.popularity,
      is_collaboration := t.is_collaboration,
      collab_indicator := t.collab_indicator,
      featuring_artist := t.featuring_artist,
      genre := ((p.1.1.2.bind (fun it => it.itunes_genre)).or
                (p.2.map (fun g => g.genre_name))).getD "Unknown" })

/-- Popularity tiers produced by `pd.qcut(df.popularity, q=3,
labels=['Low','Medium','High'])`. -/
inductive Tier where
  | low
  | medium
  | high
deriving DecidableEq, Repr

/-- The two values of `df.is_collaboration.map({0:'Solo',1:'Collaboration'})`. -/
inductive CollabStatus where
  | solo
  | collaboration
deriving DecidableEq, Repr

/-- The `{0: 'Solo', 1: 'Collaboration'}` map; any other stored value maps to
`NaN` (`none`) and its rows are dropped by `pd.crosstab`. -/
def collabStatusOf (i : Int) : Option CollabStatus :=
  if i = 0 then some .solo else if i = 1 then some .collaboration else none

/-- One cell of the `pd.crosstab(df.collab_status, df.popularity_tier)`
contingency table built by `perform_chi_square_test`.  `tier` is the binning
function produced by `pd.qcut` from the popularity column (its quantile
arithmetic is floating point, so the binning is an argument here; every
sum property below holds for any binning). -/
def contingencyCell (tier : Int → Tier) (df : List TrackDataRow)
    (s : CollabStatus) (t : Tier) : Nat :=
  df.countP (fun r => decide (collabStatusOf r.is_collaboration = some s ∧
                              tier r.popularity = t))

/-- A row sum of the contingency table. -/
def contingencyRowSum (tier : Int → Tier) (df : List TrackDataRow)
    (s : CollabStatus) : Nat :=
  contingencyCell tier df s .low + contingencyCell tier df s .medium +
    contingencyCell tier df s .high

/-- A column sum of the contingency table. -/
def contingencyColSum (tier : Int → Tier) (df : List TrackDataRow)
    (t : Tier) : Nat :=
  contingencyCell tier df .solo t + contingencyCell tier df .collaboration t

/-- The records that survive into the contingency table: those whose
`is_collaboration` value is mapped by `{0:'Solo',1:'Collaboration'}`. -/
def chiSquareRecords (df : List TrackDataRow) : List TrackDataRow :=
  df.filter (fun r => (collabStatusOf r.is_collaboration).isSome)

/-- The operations `analyze_visualize.main` can perform, in order. -/
inductive AnalysisOp where
  | joinQuery
  | mannWhitneyTest
  | chiSquareTest
  | visualization (n : Nat)
  | exportReport
deriving DecidableEq, Repr

/-- The outcome `analyze_visualize.main` reports. -/
inductive AnalysisOutcome where
  | noData
  | noCollaborations
  | completed
deriving DecidableEq, Repr

/-- Embedding of `analyze_visualize.main`: load the joined data, report
`No data found!` on an empty frame, report missing collaborations, otherwise
run both tests, the four visualizations and the export.  The second
component is the trace of operations performed. -/
def analysisMain (db : DB) : AnalysisOutcome × List AnalysisOp :=
  let df := get_track_data db
  if df.isEmpty then (.noData, [.joinQuery])
  else
    let collabCount := (df.filter (fun r => r.is_collaboration == 1)).length
    if collabCount = 0 then (.noCollaborations, [.joinQuery])
    else
      (.completed,
        [.joinQuery, .mannWhitneyTest, .chiSquareTest, .visualization 1,
         .visualization 2, .visualization 3, .visualization 4, .exportReport])

end analyze_visualize

/-! ## HTTP request/retry control flow

Each attempted request either yields a parsed payload (2xx), an HTTP error
status (for which `response.raise_for_status()` raises a
`RequestException`), or a network-level exception.  A connector call is a
function of the per-attempt outcome sequence; it returns the result, the
number of attempts actually made, and the list of waits slept between
attempts by the retry logic (the fixed pre-request rate-limit sleeps are not
retries and are not recorded).
-/

/-- Outcome of one HTTP attempt, with the parsed payload on success. -/
inductive ApiOutcome (α : Type) where
  | ok (payload : α)
  | errStatus (code : Nat)
  | netError
deriving DecidableEq, Repr

namespace gather_itunes

/-- The module global `MAX_RETRIES = 3`. -/
def MAX_RETRIES : Nat := 3

/-- The module global `RATE_LIMIT_DELAY = 2.5`. -/
def RATE_LIMIT_DELAY : Rat := 5 / 2

/-- The `for attempt in range(MAX_RETRIES)` loop of `search_itunes`:
403/429 backs off and retries; any `RequestException` (raised statuses and
network errors alike) also backs off and retries; both use
`RATE_LIMIT_DELAY * (2 ** attempt)`.  The last attempt returns `None`. -/
def searchItunesAux : Nat → Nat → List (ApiOutcome (Option ItunesData)) →
    Option ItunesData × Nat × List Rat
  | 0, _, _ => (none, 0, [])
  | remaining + 1, attempt, os =>
      match os.headD .netError with
      | .ok payload => (payload, 1, [])
      | .errStatus code =>
          if code = 403 ∨ code = 429 then
            if attempt < MAX_RETRIES - 1 then
              let d := RATE_LIMIT_DELAY * 2 ^ attempt
              let r := searchItunesAux remaining (attempt + 1) os.tail
              (r.1, r.2.1 + 1, d :: r.2.2)
            else (none, 1, [])
          else
            if attempt < MAX_RETRIES - 1 then
              let d := RATE_LIMIT_DELAY * 2 ^ attempt
              let r := searchItunesAux remaining (attempt + 1) os.tail
              (r.1, r.2.1 + 1, d :: r.2.2)
            else (none, 1, [])
      | .netError =>
          if attempt < MAX_RETRIES - 1 then
            let d := RATE_LIMIT_DELAY * 2 ^ attempt
            let r := searchItunesAux remaining (attempt + 1) os.tail
            (r.1, r.2.1 + 1, d :: r.2.2)
          else (none, 1, [])

/-- Embedding of `search_itunes` over the attempt outcome sequence. -/
def search_itunes (os : List (ApiOutcome (Option ItunesData))) :
    Option ItunesData × Nat × List Rat :=
  searchItunesAux MAX_RETRIES 0 os

/-- Number of HTTP attempts a `search_itunes` call makes. -/
def searchItunesAttempts (os : List (ApiOutcome (Option ItunesData))) : Nat :=
  (search_itunes os).2.1

/-- Backoff waits a `search_itunes` call sleeps. -/
def searchItunesDelays (os : List (ApiOutcome (Option ItunesData))) : List Rat :=
  (search_itunes os).2.2

end gather_itunes

namespace gather_musicbrainz

/-- The module global `MAX_RETRIES = 3`. -/
def MAX_RETRIES : Nat := 3

/-- The `for attempt in range(MAX_RETRIES)` loop of `fetch_genre_for_artist`:
any `RequestException` (raised statuses and network errors alike) sleeps a
fixed `2` seconds and retries; the last attempt returns `None`.  (A fixed
`RATE_LIMIT_DELAY = 1.1` sleep also precedes every attempt; it is rate
limiting, not retry backoff, and is not recorded here.) -/
def fetchGenreAux : Nat → Nat → List (ApiOutcome (Option String)) →
    Option String × Nat × List Rat
  | 0, _, _ => (none, 0, [])
  | remaining + 1, attempt, os =>
      match os.headD .netError with
      | .ok payload => (payload, 1, [])
      | .errStatus _ =>
          if attempt < MAX_RETRIES - 1 then
            let r := fetchGenreAux remaining (attempt + 1) os.tail
            (r.1, r.2.1 + 1, 2 :: r.2.2)
          else (none, 1, [])
      | .netError =>
          if attempt < MAX_RETRIES - 1 then
            let r := fetchGenreAux remaining (attempt + 1) os.tail
            (r.1, r.2.1 + 1, 2 :: r.2.2)
          else (none, 1, [])

/-- Embedding of `fetch_genre_for_artist` over the attempt outcome sequence. -/
def fetch_genre_for_artist (os : List (ApiOutcome (Option String))) :
    Option String × Nat × List Rat :=
  fetchGenreAux MAX_RETRIES 0 os

/-- Number of HTTP attempts a `fetch_genre_for_artist` call makes. -/
def fetchGenreAttempts (os : List (ApiOutcome (Option String))) : Nat :=
  (fetch_genre_for_artist os).2.1

/-- Retry waits a `fetch_genre_for_artist` call sleeps. -/
def fetchGenreDelays (os : List (ApiOutcome (Option String))) : List Rat :=
  (fetch_genre_for_artist os).2.2

end gather_musicbrainz

namespace gather_deezer

/-- Embedding of the single `try: requests.get(...)` of `fetch_deezer_charts`:
one attempt; any failure returns the empty list.  The second component is the
number of HTTP attempts made. -/
def fetch_deezer_charts (o : ApiOutcome (List TrackRec)) : List TrackRec × Nat :=
  match o with
  | .ok tracks => (tracks, 1)
  | .errStatus _ => ([], 1)
  | .netError => ([], 1)

end gather_deezer

namespace gather_census

/-- Embedding of the single `try: requests.get(...)` of `fetch_census_data`:
one attempt; any failure falls back to `get_simulated_census_data()` (whose
`population` values come from unseeded randomness, hence an argument).  The
second component is the number of HTTP attempts made. -/
def fetch_census_data (o : ApiOutcome (List RegionRec)) (simulated : List RegionRec) :
    List RegionRec × Nat :=
  match o with
  | .ok regions => (regions, 1)
  | .errStatus _ => (simulated, 1)
  | .netError => (simulated, 1)

end gather_census


/-! ## List growth (append-only table updates) -/

/-- The old table contents form a prefix of the new contents: existing rows
are untouched and new rows are appended. -/
def Grows {α : Type} (old new : List α) : Prop := ∃ s, new = old ++ s

theorem grows_refl {α : Type} (l : List α) : Grows l l := ⟨[], by simp⟩

theorem grows_append {α : Type} (l s : List α) : Grows l (l ++ s) := ⟨s, rfl⟩

theorem grows_trans {α : Type} {a b c : List α} (h1 : Grows a b) (h2 : Grows b c) :
    Grows a c := by
  obtain ⟨s1, rfl⟩ := h1
  obtain ⟨s2, rfl⟩ := h2
  exact ⟨s1 ++ s2, by simp⟩

theorem mem_of_grows {α : Type} {a : α} {old new : List α}
    (h : Grows old new) (ha : a ∈ old) : a ∈ new := by
  obtain ⟨s, rfl⟩ := h
  exact List.mem_append_left _ ha

/-! ## Frame lemmas for the shared insert statements -/

theorem insertGenreIfAbsent_tracks (db : DB) (n : String) :
    (insertGenreIfAbsent db n).tracks = db.tracks := by
  unfold insertGenreIfAbsent; split <;> rfl

theorem insertGenreIfAbsent_track_genres (db : DB) (n : String) :
    (insertGenreIfAbsent db n).track_genres = db.track_genres := by
  unfold insertGenreIfAbsent; split <;> rfl

theorem insertGenreIfAbsent_itunes (db : DB) (n : String) :
    (insertGenreIfAbsent db n).itunes_tracks = db.itunes_tracks := by
  unfold insertGenreIfAbsent; split <;> rfl

theorem insertGenreIfAbsent_stats (db : DB) (n : String) :
    (insertGenreIfAbsent db n).collaboration_stats = db.collaboration_stats := by
  unfold insertGenreIfAbsent; split <;> rfl

theorem insertGenreIfAbsent_genres (db : DB) (n : String) :
    Grows db.genres (insertGenreIfAbsent db n).genres := by
  unfold insertGenreIfAbsent; split
  · exact grows_refl _
  · exact grows_append _ _

theorem insertJunction_tracks (db : DB) (tid gid : Nat) :
    (insertJunction db tid gid).1.tracks = db.tracks := by
  unfold insertJunction; split <;> rfl

theorem insertJunction_genres (db : DB) (tid gid : Nat) :
    (insertJunction db tid gid).1.genres = db.genres := by
  unfold insertJunction; split <;> rfl

theorem insertJunction_itunes (db : DB) (tid gid : Nat) :
    (insertJunction db tid gid).1.itunes_tracks = db.itunes_tracks := by
  unfold insertJunction; split <;> rfl

theorem insertJunction_stats (db : DB) (tid gid : Nat) :
    (insertJunction db tid gid).1.collaboration_stats = db.collaboration_stats := by
  unfold insertJunction; split <;> rfl

theorem insertJunction_track_genres (db : DB) (tid gid : Nat) :
    Grows db.track_genres (insertJunction db tid gid).1.track_genres := by
  unfold insertJunction; split
  · exact grows_refl _
  · exact grows_append _ _

theorem linkTrackToGenre_tracks (db : DB) (tid : Nat) (g : String) :
    (linkTrackToGenre db tid g).1.tracks = db.tracks := by
  unfold linkTrackToGenre
  cases h : (insertGenreIfAbsent db g).genres.find? (fun r => r.genre_name == g) with
  | none => simp [h, insertGenreIfAbsent_tracks]
  | some r => simp [h, insertJunction_tracks, insertGenreIfAbsent_tracks]

theorem linkTrackToGenre_itunes (db : DB) (tid : Nat) (g : String) :
    (linkTrackToGenre db tid g).1.itunes_tracks = db.itunes_tracks := by
  unfold linkTrackToGenre
  cases h : (insertGenreIfAbsent db g).genres.find? (fun r => r.genre_name == g) with
  | none => simp [h, insertGenreIfAbsent_itunes]
  | some r => simp [h, insertJunction_itunes, insertGenreIfAbsent_itunes]

theorem linkTrackToGenre_stats (db : DB) (tid : Nat) (g : String) :
    (linkTrackToGenre db tid g).1.collaboration_stats = db.collaboration_stats := by
  unfold linkTrackToGenre
  cases h : (insertGenreIfAbsent db g).genres.find? (fun r => r.genre_name == g) with
  | none => simp [h, insertGenreIfAbsent_stats]
  | some r => simp [h, insertJunction_stats, insertGenreIfAbsent_stats]

theorem linkTrackToGenre_genres (db : DB) (tid : Nat) (g : String) :
    Grows db.genres (linkTrackToGenre db tid g).1.genres := by
  unfold linkTrackToGenre
  cases h : (insertGenreIfAbsent db g).genres.find? (fun r => r.genre_name == g) with
  | none => simpa [h] using insertGenreIfAbsent_genres db g
  | some r =>
      simp only [h]
      rw [insertJunction_genres]
      exact insertGenreIfAbsent_genres db g

theorem linkTrackToGenre_track_genres (db : DB) (tid : Nat) (g : String) :
    Grows db.track_genres (linkTrackToGenre db tid g).1.track_genres := by
  unfold linkTrackToGenre
  cases h : (insertGenreIfAbsent db g).genres.find? (fun r => r.genre_name == g) with
  | none => simp [h, insertGenreIfAbsent_track_genres]; exact grows_refl _
  | some r =>
      simp only [h]
      have := insertJunction_track_genres (insertGenreIfAbsent db g) tid r.genre_id
      rwa [insertGenreIfAbsent_track_genres] at this

namespace gather_deezer

theorem store_genre_for_track_tracks (db : DB) (tid : Nat) (g : String) :
    (store_genre_for_track db tid g).tracks = db.tracks :=
  linkTrackToGenre_tracks db tid g

theorem store_genre_for_track_itunes (db : DB) (tid : Nat) (g : String) :
    (store_genre_for_track db tid g).itunes_tracks = db.itunes_tracks :=
  linkTrackToGenre_itunes db tid g

theorem store_genre_for_track_stats (db : DB) (tid : Nat) (g : String) :
    (store_genre_for_track db tid g).collaboration_stats = db.collaboration_stats :=
  linkTrackToGenre_stats db tid g

theorem store_genre_for_track_genres (db : DB) (tid : Nat) (g : String) :
    Grows db.genres (store_genre_for_track db tid g).genres :=
  linkTrackToGenre_genres db tid g

theorem store_genre_for_track_track_genres (db : DB) (tid : Nat) (g : String) :
    Grows db.track_genres (store_genre_for_track db tid g).track_genres :=
  linkTrackToGenre_track_genres db tid g

end gather_deezer


namespace gather_deezer

theorem storeTrackStep_itunes (detect : Detect) (db : DB) (t : TrackRec) :
    (storeTrackStep detect db t).1.itunes_tracks = db.itunes_tracks := by
  unfold storeTrackStep
  split
  · rfl
  · cases t.genre <;> simp [store_genre_for_track_itunes]

theorem storeTrackStep_stats (detect : Detect) (db : DB) (t : TrackRec) :
    (storeTrackStep detect db t).1.collaboration_stats = db.collaboration_stats := by
  unfold storeTrackStep
  split
  · rfl
  · cases t.genre <;> simp [store_genre_for_track_stats]

theorem storeTrackStep_genres (detect : Detect) (db : DB) (t : TrackRec) :
    Grows db.genres (storeTrackStep detect db t).1.genres := by
  unfold storeTrackStep
  split
  · exact grows_refl _
  · cases t.genre with
    | none => exact grows_refl _
    | some g => simpa using store_genre_for_track_genres _ db.next_track_id g

theorem storeTrackStep_track_genres (detect : Detect) (db : DB) (t : TrackRec) :
    Grows db.track_genres (storeTrackStep detect db t).1.track_genres := by
  unfold storeTrackStep
  split
  · exact grows_refl _
  · cases t.genre with
    | none => exact grows_refl _
    | some g => simpa using store_genre_for_track_track_genres _ db.next_track_id g

theorem storeTrackStep_tracks_grows (detect : Detect) (db : DB) (t : TrackRec) :
    Grows db.tracks (storeTrackStep detect db t).1.tracks := by
  unfold storeTrackStep
  split
  · exact grows_refl _
  · cases t.genre <;> simp [store_genre_for_track_tracks]
    · exact grows_append _ _
    · exact grows_append _ _

/-- Each loop iteration adds exactly one tracks row when it stores and none
otherwise. -/
theorem storeTrackStep_tracks_len (detect : Detect) (db : DB) (t : TrackRec) :
    (storeTrackStep detect db t).1.tracks.length =
      db.tracks.length + (if (storeTrackStep detect db t).2 then 1 else 0) := by
  unfold storeTrackStep
  split
  · simp
  · cases t.genre <;> simp [store_genre_for_track_tracks]

theorem storeTracksLoop_count (detect : Detect) (l : List TrackRec) (db : DB) :
    (storeTracksLoop detect db l).1.tracks.length =
        db.tracks.length + (storeTracksLoop detect db l).2 ∧
      (storeTracksLoop detect db l).2 ≤ l.length := by
  induction l generalizing db with
  | nil => simp [storeTracksLoop]
  | cons t ts ih =>
      have hstep := storeTrackStep_tracks_len detect db t
      have hrec := ih (storeTrackStep detect db t).1
      constructor
      · simp only [storeTracksLoop]
        rw [hrec.1, hstep]
        cases (storeTrackStep detect db t).2 <;> simp <;> omega
      · simp only [storeTracksLoop]
        have := hrec.2
        cases (storeTrackStep detect db t).2 <;> simp <;> omega

end gather_deezer

/-- C2: a single `store_tracks` call stores at most `MAX_ITEMS_PER_RUN` rows
and adds at most `MAX_ITEMS_PER_RUN` rows to the `tracks` table, for every
input list and debug mode; with `DEBUG_MODE = False` that maximum is 25. -/
theorem store_tracks_bounded (detect : gather_deezer.Detect) (debug : Bool)
    (db : DB) (tracks : List gather_deezer.TrackRec) :
    (gather_deezer.store_tracks detect debug db tracks).2 ≤
        gather_deezer.MAX_ITEMS_PER_RUN debug ∧
      (gather_deezer.store_tracks detect debug db tracks).1.tracks.length ≤
        db.tracks.length + gather_deezer.MAX_ITEMS_PER_RUN debug ∧
      gather_deezer.MAX_ITEMS_PER_RUN false = 25 := by
  have h := gather_deezer.storeTracksLoop_count detect
    (tracks.take (gather_deezer.MAX_ITEMS_PER_RUN debug)) db
  have htake : (tracks.take (gather_deezer.MAX_ITEMS_PER_RUN debug)).length ≤
      gather_deezer.MAX_ITEMS_PER_RUN debug := List.length_take_le _ _
  refine ⟨?_, ?_, rfl⟩
  · exact le_trans h.2 htake
  · unfold gather_deezer.store_tracks
    omega


/-! ## C3: genre normalization is pure and total with default "other" -/

theorem firstGenre_no_match (l : List (String × List String)) (low : String)
    (h : ∀ p ∈ l, matchesVariants p.2 low = false) : firstGenre l low = "other" := by
  induction l with
  | nil => rfl
  | cons p rest ih =>
      obtain ⟨g, vs⟩ := p
      have hp := h (g, vs) (List.mem_cons_self _ _)
      simp only [firstGenre]
      rw [hp]
      exact ih (fun q hq => h q (List.mem_cons_of_mem _ hq))

/-- C3: `process_data.normalize_genre` is a pure total function: the same raw
tag always yields the same category; a missing (`None`) or empty tag yields
`"other"`; and every tag that matches no mapping variant (neither by list
membership nor by substring containment, after lowercasing) yields
`"other"`. -/
theorem normalize_genre_pure_total (g : Option String) :
    process_data.normalize_genre g = process_data.normalize_genre g ∧
      process_data.normalize_genre none = "other" ∧
      process_data.normalize_genre (some "") = "other" ∧
      ∀ s : String,
        (∀ p ∈ process_data.mappings, matchesVariants p.2 (pyLower s) = false) →
        process_data.normalize_genre (some s) = "other" := by
  refine ⟨rfl, rfl, rfl, ?_⟩
  intro s hs
  by_cases he : s = ""
  · subst he; rfl
  · simp only [process_data.normalize_genre, if_neg he]
    exact firstGenre_no_match _ _ hs

/-- Witness for C3 at the unmapped tag `"zzz"`. -/
theorem normalize_genre_pure_total_witness :
    (∀ p ∈ process_data.mappings, matchesVariants p.2 (pyLower "zzz") = false) ∧
      process_data.normalize_genre (some "zzz") = "other" :=
  ⟨by decide, (normalize_genre_pure_total (some "zzz")).2.2.2 "zzz" (by decide)⟩

/-! ## C10: rollback of the uncommitted DELETE on the no-data path -/

theorem collabJoinRows_stats_irrel (db : DB) (s : List StatRow) :
    process_data.collabJoinRows { db with collaboration_stats := s } =
      process_data.collabJoinRows db := rfl

/-- C10: when the join over `tracks` returns no rows,
`calculate_collaboration_stats` returns 0 and the database is unchanged: the
`DELETE FROM collaboration_stats` issued before the check is not committed,
and closing the connection rolls the transaction back. -/
theorem calculate_collaboration_stats_rollback (db : DB)
    (h : process_data.collabJoinRows db = []) :
    process_data.calculate_collaboration_stats db = (db, 0) := by
  unfold process_data.calculate_collaboration_stats
  simp only [Conn.openDB, Conn.execWrite, Conn.closeDB]
  rw [collabJoinRows_stats_irrel, h]
  simp

/-- A database with no tracks but a nonempty `collaboration_stats` table. -/
def dbStaleStats : DB :=
  { DB.empty with
    genres := [⟨1, "pop"⟩],
    collaboration_stats := [⟨1, 1, 0, 3, 10, 10⟩],
    next_genre_id := 2,
    next_stat_id := 2 }

/-- Witness for C10: on a database with stale stats and no tracks, the stale
rows survive and the call returns 0. -/
theorem calculate_collaboration_stats_rollback_witness :
    process_data.collabJoinRows dbStaleStats = [] ∧
      process_data.calculate_collaboration_stats dbStaleStats = (dbStaleStats, 0) :=
  ⟨rfl, calculate_collaboration_stats_rollback dbStaleStats rfl⟩

/-! ## C5: the analysis stage on an empty tracks table -/

theorem get_track_data_of_no_tracks (db : DB) (h : db.tracks = []) :
    analyze_visualize.get_track_data db = [] := by
  unfold analyze_visualize.get_track_data leftJoin
  rw [h]
  rfl

/-- C5 counterexample: on a database whose `tracks` table has 0 rows,
`analyze_visualize.main` does report no data, but it performs the join: the
`get_track_data` LEFT JOIN query is executed (and only then is the empty
result detected), contradicting "performs no join". -/
theorem analysisMain_empty_performs_join :
    (analyze_visualize.analysisMain dbStaleStats).1 = .noData ∧
      .joinQuery ∈ (analyze_visualize.analysisMain dbStaleStats).2 := by decide

/-- C5 amended: with 0 rows in `tracks`, the analysis stage reports no data
and performs nothing beyond the single join query: no statistical test, no
visualization, no export. -/
theorem analysisMain_empty_only_join (db : DB) (h : db.tracks = []) :
    (analyze_visualize.analysisMain db).1 = .noData ∧
      (analyze_visualize.analysisMain db).2 = [.joinQuery] := by
  unfold analyze_visualize.analysisMain
  rw [get_track_data_of_no_tracks db h]
  simp

/-- Witness for the amended C5 on a concrete empty-tracks database. -/
theorem analysisMain_empty_only_join_witness :
    dbStaleStats.tracks = [] ∧
      (analyze_visualize.analysisMain dbStaleStats).2 = [.joinQuery] :=
  ⟨rfl, (analysisMain_empty_only_join dbStaleStats rfl).2⟩


/-! ## C4: contingency table sums -/

namespace analyze_visualize

theorem contingencyCells_total (tier : Int → Tier) (df : List TrackDataRow) :
    contingencyCell tier df .solo .low + contingencyCell tier df .solo .medium +
        contingencyCell tier df .solo .high +
        contingencyCell tier df .collaboration .low +
        contingencyCell tier df .collaboration .medium +
        contingencyCell tier df .collaboration .high =
      (chiSquareRecords df).length := by
  induction df with
  | nil => rfl
  | cons r rows ih =>
      rcases hs : collabStatusOf r.is_collaboration with _ | s
      · simp [contingencyCell, chiSquareRecords, List.countP_cons, List.filter_cons,
          hs] at ih ⊢
        omega
      · rcases s with _ | _ <;> rcases ht : tier r.popularity with _ | _ | _ <;>
          (simp [contingencyCell, chiSquareRecords, List.countP_cons,
            List.filter_cons, hs, ht] at ih ⊢
           omega)

/-- C4: for every track DataFrame and every popularity binning, the row sums
of the contingency table built by `perform_chi_square_test` total the number
of records surviving the `{0:'Solo',1:'Collaboration'}` mapping, and so do
the column sums. -/
theorem contingency_sums (tier : Int → Tier) (df : List TrackDataRow) :
    contingencyRowSum tier df .solo + contingencyRowSum tier df .collaboration =
        (chiSquareRecords df).length ∧
      contingencyColSum tier df .low + contingencyColSum tier df .medium +
          contingencyColSum tier df .high =
        (chiSquareRecords df).length := by
  have h := contingencyCells_total tier df
  constructor
  · simp only [contingencyRowSum]
    omega
  · simp only [contingencyColSum]
    omega

end analyze_visualize


/-! ## C1: ingestion idempotence -/

theorem insertGenreIfAbsent_of_present (db : DB) (n : String)
    (h : db.genres.any (fun g => g.genre_name == n) = true) :
    insertGenreIfAbsent db n = db := by
  unfold insertGenreIfAbsent
  simp [h]

theorem insertGenreIfAbsent_present (db : DB) (n : String) :
    (insertGenreIfAbsent db n).genres.any (fun g => g.genre_name == n) = true := by
  unfold insertGenreIfAbsent
  by_cases h : db.genres.any (fun g => g.genre_name == n) = true
  · simpa [h] using h
  · simp [h]

theorem insertJunction_of_present (db : DB) (tid gid : Nat)
    (h : db.track_genres.any (fun tg => tg.track_id == tid && tg.genre_id == gid) = true) :
    insertJunction db tid gid = (db, false) := by
  unfold insertJunction
  simp [h]

theorem insertJunction_present (db : DB) (tid gid : Nat) :
    (insertJunction db tid gid).1.track_genres.any
      (fun tg => tg.track_id == tid && tg.genre_id == gid) = true := by
  unfold insertJunction
  by_cases h : db.track_genres.any (fun tg => tg.track_id == tid && tg.genre_id == gid) = true
  · simpa [h] using h
  · simp [h]

/-- Re-running the genre/junction insert sequence with the same arguments
changes nothing: the genre row and the junction row are already present. -/
theorem linkTrackToGenre_idem (db : DB) (tid : Nat) (g : String) :
    (linkTrackToGenre (linkTrackToGenre db tid g).1 tid g).1 =
      (linkTrackToGenre db tid g).1 := by
  have hpres := insertGenreIfAbsent_present db g
  cases hf : (insertGenreIfAbsent db g).genres.find? (fun r => r.genre_name == g) with
  | none =>
      rw [List.find?_eq_none] at hf
      rw [List.any_eq_true] at hpres
      obtain ⟨row, hrow, hname⟩ := hpres
      exact absurd hname (by simpa using hf row hrow)
  | some r =>
      have h1 : linkTrackToGenre db tid g =
          insertJunction (insertGenreIfAbsent db g) tid r.genre_id := by
        unfold linkTrackToGenre
        simp [hf]
      have hBg : (insertJunction (insertGenreIfAbsent db g) tid r.genre_id).1.genres =
          (insertGenreIfAbsent db g).genres := insertJunction_genres _ _ _
      have h2 : insertGenreIfAbsent
          (insertJunction (insertGenreIfAbsent db g) tid r.genre_id).1 g =
          (insertJunction (insertGenreIfAbsent db g) tid r.genre_id).1 := by
        apply insertGenreIfAbsent_of_present
        rw [hBg]
        exact hpres
      rw [h1]
      unfold linkTrackToGenre
      simp only [h2, hBg, hf]
      simp [insertJunction_of_present _ _ _ (insertJunction_present _ _ _)]

namespace gather_deezer

/-- Re-running `store_genre_for_track` with the same arguments changes
nothing. -/
theorem store_genre_for_track_idem (db : DB) (tid : Nat) (g : String) :
    store_genre_for_track (store_genre_for_track db tid g) tid g =
      store_genre_for_track db tid g :=
  linkTrackToGenre_idem db tid g

/-- A step whose `deezer_id` is already present is ignored. -/
theorem storeTrackStep_skip (detect : Detect) (db : DB) (t : TrackRec)
    (h : ∃ row ∈ db.tracks, row.deezer_id = t.deezer_id) :
    storeTrackStep detect db t = (db, false) := by
  unfold storeTrackStep
  have ha : db.tracks.any (fun row => row.deezer_id == t.deezer_id) = true := by
    rw [List.any_eq_true]
    obtain ⟨row, hrow, hd⟩ := h
    exact ⟨row, hrow, by simp [hd]⟩
  simp [ha]

/-- After one step the processed record has a matching `deezer_id` row. -/
theorem storeTrackStep_covers (detect : Detect) (db : DB) (t : TrackRec) :
    ∃ row ∈ (storeTrackStep detect db t).1.tracks, row.deezer_id = t.deezer_id := by
  unfold storeTrackStep
  by_cases h : db.tracks.any (fun row => row.deezer_id == t.deezer_id) = true
  · simp only [h, if_true]
    rw [List.any_eq_true] at h
    obtain ⟨row, hrow, hd⟩ := h
    exact ⟨row, hrow, by simpa using hd⟩
  · simp only [eq_false_of_ne_true h, Bool.false_eq_true, if_false]
    cases t.genre with
    | none =>
        refine ⟨_, List.mem_append_right _ (List.mem_singleton.mpr rfl), rfl⟩
    | some g =>
        rw [store_genre_for_track_tracks]
        exact ⟨_, List.mem_append_right _ (List.mem_singleton.mpr rfl), rfl⟩

theorem storeTracksLoop_tracks_grows (detect : Detect) (l : List TrackRec) (db : DB) :
    Grows db.tracks (storeTracksLoop detect db l).1.tracks := by
  induction l generalizing db with
  | nil => exact grows_refl _
  | cons t ts ih =>
      simp only [storeTracksLoop]
      exact grows_trans (storeTrackStep_tracks_grows detect db t) (ih _)

/-- After a run, every processed record has a matching `deezer_id` row. -/
theorem storeTracksLoop_covers (detect : Detect) (l : List TrackRec) (db : DB) :
    ∀ t ∈ l, ∃ row ∈ (storeTracksLoop detect db l).1.tracks,
      row.deezer_id = t.deezer_id := by
  induction l generalizing db with
  | nil => intro t ht; cases ht
  | cons u ts ih =>
      intro t ht
      simp only [storeTracksLoop]
      rcases List.mem_cons.mp ht with rfl | hts
      · obtain ⟨row, hrow, hd⟩ := storeTrackStep_covers detect db t
        exact ⟨row, mem_of_grows (storeTracksLoop_tracks_grows detect ts _) hrow, hd⟩
      · exact ih _ t hts

/-- A run whose records are all already present stores nothing and leaves the
database untouched. -/
theorem storeTracksLoop_noop (detect : Detect) (l : List TrackRec) (db : DB)
    (h : ∀ t ∈ l, ∃ row ∈ db.tracks, row.deezer_id = t.deezer_id) :
    storeTracksLoop detect db l = (db, 0) := by
  induction l generalizing db with
  | nil => rfl
  | cons t ts ih =>
      simp only [storeTracksLoop]
      rw [storeTrackStep_skip detect db t (h t (List.mem_cons_self _ _))]
      rw [ih db (fun u hu => h u (List.mem_cons_of_mem _ hu))]
      simp

theorem store_tracks_idem (detect : Detect) (debug : Bool) (db : DB)
    (ts : List TrackRec) :
    store_tracks detect debug (store_tracks detect debug db ts).1 ts =
      ((store_tracks detect debug db ts).1, 0) := by
  unfold store_tracks
  exact storeTracksLoop_noop detect _ _ (storeTracksLoop_covers detect _ db)

end gather_deezer

namespace gather_itunes

theorem store_itunes_track_idem (db : DB) (tid : Nat) (data : Option ItunesData) :
    store_itunes_track (store_itunes_track db tid data).1 tid data =
      ((store_itunes_track db tid data).1, false) := by
  unfold store_itunes_track
  cases data with
  | none => rfl
  | some d =>
      by_cases h : db.itunes_tracks.any (fun row => row.itunes_id == d.itunes_id) = true
      · simp [h]
      · simp [eq_false_of_ne_true h, List.any_append]

end gather_itunes

/-- C1: ingestion is idempotent.  Re-running `store_tracks` on the same
records stores zero rows and leaves the database exactly as after the first
run; re-running `store_itunes_track` with the same payload stores nothing
and changes nothing; and re-running `store_genre_for_track` (the
genre/junction inserts keyed by `genre_name` and `(track_id, genre_id)`)
changes nothing. -/
theorem ingestion_idempotent :
    (∀ (detect : gather_deezer.Detect) (debug : Bool) (db : DB)
        (ts : List gather_deezer.TrackRec),
      gather_deezer.store_tracks detect debug
          (gather_deezer.store_tracks detect debug db ts).1 ts =
        ((gather_deezer.store_tracks detect debug db ts).1, 0)) ∧
      (∀ (db : DB) (tid : Nat) (data : Option gather_itunes.ItunesData),
        gather_itunes.store_itunes_track
            (gather_itunes.store_itunes_track db tid data).1 tid data =
          ((gather_itunes.store_itunes_track db tid data).1, false)) ∧
      (∀ (db : DB) (tid : Nat) (g : String),
        gather_deezer.store_genre_for_track
            (gather_deezer.store_genre_for_track db tid g) tid g =
          gather_deezer.store_genre_for_track db tid g) :=
  ⟨gather_deezer.store_tracks_idem, gather_itunes.store_itunes_track_idem,
   gather_deezer.store_genre_for_track_idem⟩


/-! ## C8: retry policy of the connectors -/

namespace gather_itunes

/-- Characterization of the `search_itunes` loop: with the invariant
`remaining + attempt = 3`, the call makes between 1 and `remaining`
attempts and its waits follow the exponential schedule
`RATE_LIMIT_DELAY * 2 ^ attempt`. -/
theorem searchItunesAux_spec (remaining : Nat) :
    ∀ (attempt : Nat) (os : List (ApiOutcome (Option ItunesData))),
    remaining + attempt = 3 → 1 ≤ remaining →
    1 ≤ (searchItunesAux remaining attempt os).2.1 ∧
      (searchItunesAux remaining attempt os).2.1 ≤ remaining ∧
      (searchItunesAux remaining attempt os).2.2 =
        (List.range ((searchItunesAux remaining attempt os).2.1 - 1)).map
          (fun k => RATE_LIMIT_DELAY * 2 ^ (attempt + k)) := by
  induction remaining with
  | zero => intro attempt os hinv hr; cases hr
  | succ rem ih =>
      intro attempt os hinv hr
      have hretry : ∀ (r : Option ItunesData × Nat × List Rat),
          r = searchItunesAux rem (attempt + 1) os.tail →
          attempt < MAX_RETRIES - 1 →
          1 ≤ r.2.1 + 1 ∧ r.2.1 + 1 ≤ rem + 1 ∧
            (RATE_LIMIT_DELAY * 2 ^ attempt) :: r.2.2 =
              (List.range (r.2.1 + 1 - 1)).map
                (fun k => RATE_LIMIT_DELAY * 2 ^ (attempt + k)) := by
        intro r hrq hlt
        have hrem : 1 ≤ rem := by
          unfold MAX_RETRIES at hlt
          omega
        obtain ⟨h1, h2, h3⟩ := ih (attempt + 1) os.tail (by omega) hrem
        rw [← hrq] at h1 h2 h3
        refine ⟨by omega, by omega, ?_⟩
        obtain ⟨m, hm⟩ : ∃ m, r.2.1 = m + 1 := ⟨r.2.1 - 1, by omega⟩
        rw [h3, hm]
        simp only [Nat.add_sub_cancel, List.range_succ_eq_map, List.map_cons,
          List.map_map]
        congr 1
        apply List.map_congr_left
        intro k _
        simp only [Function.comp_apply, Nat.succ_eq_add_one]
        have hx : attempt + 1 + k = attempt + (k + 1) := by omega
        rw [hx]
      cases ho : os.headD .netError with
      | ok payload =>
          simp only [searchItunesAux, ho]
          exact ⟨le_refl 1, by omega, rfl⟩
      | errStatus code =>
          simp only [searchItunesAux, ho]
          by_cases hc : code = 403 ∨ code = 429
          · simp only [hc, if_true]
            by_cases hlt : attempt < MAX_RETRIES - 1
            · simp only [hlt, if_true]
              exact hretry _ rfl hlt
            · simp only [hlt, if_false]
              exact ⟨le_refl 1, by omega, rfl⟩
          · simp only [hc, if_false]
            by_cases hlt : attempt < MAX_RETRIES - 1
            · simp only [hlt, if_true]
              exact hretry _ rfl hlt
            · simp only [hlt, if_false]
              exact ⟨le_refl 1, by omega, rfl⟩
      | netError =>
          simp only [searchItunesAux, ho]
          by_cases hlt : attempt < MAX_RETRIES - 1
          · simp only [hlt, if_true]
            exact hretry _ rfl hlt
          · simp only [hlt, if_false]
            exact ⟨le_refl 1, by omega, rfl⟩

end gather_itunes

namespace gather_musicbrainz

/-- Characterization of the `fetch_genre_for_artist` loop: between 1 and
`remaining` attempts, and every wait is the fixed 2 seconds. -/
theorem fetchGenreAux_spec (remaining : Nat) :
    ∀ (attempt : Nat) (os : List (ApiOutcome (Option String))),
    remaining + attempt = 3 → 1 ≤ remaining →
    1 ≤ (fetchGenreAux remaining attempt os).2.1 ∧
      (fetchGenreAux remaining attempt os).2.1 ≤ remaining ∧
      (fetchGenreAux remaining attempt os).2.2 =
        List.replicate ((fetchGenreAux remaining attempt os).2.1 - 1) 2 := by
  induction remaining with
  | zero => intro attempt os hinv hr; cases hr
  | succ rem ih =>
      intro attempt os hinv hr
      have hretry : ∀ (r : Option String × Nat × List Rat),
          r = fetchGenreAux rem (attempt + 1) os.tail →
          attempt < MAX_RETRIES - 1 →
          1 ≤ r.2.1 + 1 ∧ r.2.1 + 1 ≤ rem + 1 ∧
            (2 : Rat) :: r.2.2 = List.replicate (r.2.1 + 1 - 1) 2 := by
        intro r hrq hlt
        have hrem : 1 ≤ rem := by
          unfold MAX_RETRIES at hlt
          omega
        obtain ⟨h1, h2, h3⟩ := ih (attempt + 1) os.tail (by omega) hrem
        rw [← hrq] at h1 h2 h3
        refine ⟨by omega, by omega, ?_⟩
        obtain ⟨m, hm⟩ : ∃ m, r.2.1 = m + 1 := ⟨r.2.1 - 1, by omega⟩
        rw [h3, hm]
        simp [List.replicate_succ]
      cases ho : os.headD .netError with
      | ok payload =>
          simp only [fetchGenreAux, ho]
          exact ⟨le_refl 1, by omega, rfl⟩
      | errStatus code =>
          simp only [fetchGenreAux, ho]
          by_cases hlt : attempt < MAX_RETRIES - 1
          · simp only [hlt, if_true]
            exact hretry _ rfl hlt
          · simp only [hlt, if_false]
            exact ⟨le_refl 1, by omega, rfl⟩
      | netError =>
          simp only [fetchGenreAux, ho]
          by_cases hlt : attempt < MAX_RETRIES - 1
          · simp only [hlt, if_true]
            exact hretry _ rfl hlt
          · simp only [hlt, if_false]
            exact ⟨le_refl 1, by omega, rfl⟩

end gather_musicbrainz

/-- C8 counterexample: the retry behaviour is not "specifically on 403/429
with exponential backoff".  `fetch_genre_for_artist` retries after a plain
500 response (and after a network error), and its waits are the constant 2
seconds rather than an exponential schedule; `search_itunes` likewise
retries after a network error, which is not a 403/429 response. -/
theorem retry_policy_counterexample :
    gather_musicbrainz.fetchGenreAttempts [.errStatus 500, .ok (some "rock")] = 2 ∧
      gather_musicbrainz.fetchGenreDelays [.errStatus 500, .errStatus 500, .errStatus 500] =
        [2, 2] ∧
      gather_itunes.searchItunesAttempts [.netError, .ok none] = 2 := by
  refine ⟨rfl, ?_, rfl⟩
  show gather_musicbrainz.fetchGenreDelays _ = _
  norm_num [gather_musicbrainz.fetchGenreDelays, gather_musicbrainz.fetch_genre_for_artist,
    gather_musicbrainz.fetchGenreAux, gather_musicbrainz.MAX_RETRIES]

/-- C8 amended: only `fetch_genre_for_artist` and `search_itunes` retry, and
each makes at most 3 attempts.  `search_itunes` backs off exponentially
(`RATE_LIMIT_DELAY * 2 ** attempt`) but does so for every RequestException,
not only 403/429 responses; `fetch_genre_for_artist` retries on any
RequestException with a fixed 2-second wait.  The Deezer and Census
connectors always make exactly one attempt. -/
theorem retry_policy (os1 : List (ApiOutcome (Option gather_itunes.ItunesData)))
    (os2 : List (ApiOutcome (Option String)))
    (o3 : ApiOutcome (List gather_deezer.TrackRec))
    (o4 : ApiOutcome (List gather_census.RegionRec))
    (sim : List gather_census.RegionRec) :
    (1 ≤ gather_itunes.searchItunesAttempts os1 ∧
        gather_itunes.searchItunesAttempts os1 ≤ 3 ∧
        gather_itunes.searchItunesDelays os1 =
          (List.range (gather_itunes.searchItunesAttempts os1 - 1)).map
            (fun k => gather_itunes.RATE_LIMIT_DELAY * 2 ^ k)) ∧
      (1 ≤ gather_musicbrainz.fetchGenreAttempts os2 ∧
        gather_musicbrainz.fetchGenreAttempts os2 ≤ 3 ∧
        gather_musicbrainz.fetchGenreDelays os2 =
          List.replicate (gather_musicbrainz.fetchGenreAttempts os2 - 1) 2) ∧
      (gather_deezer.fetch_deezer_charts o3).2 = 1 ∧
      (gather_census.fetch_census_data o4 sim).2 = 1 := by
  refine ⟨?_, ?_, ?_, ?_⟩
  · obtain ⟨h1, h2, h3⟩ := gather_itunes.searchItunesAux_spec 3 0 os1 rfl (by omega)
    exact ⟨h1, h2, by simpa using h3⟩
  · obtain ⟨h1, h2, h3⟩ := gather_musicbrainz.fetchGenreAux_spec 3 0 os2 rfl (by omega)
    exact ⟨h1, h2, h3⟩
  · cases o3 <;> rfl
  · cases o4 <;> rfl


/-! ## C9: the two normalize_genre functions differ -/

/-- C9 counterexample: the two `normalize_genre` functions disagree at the
raw tag `"jazz"`: `process_data` maps it to `"jazz"` while
`analyze_visualize` (whose table has no jazz entry) maps it to `"other"`. -/
theorem normalize_genre_divergence :
    process_data.normalize_genre (some "jazz") = "jazz" ∧
      analyze_visualize.normalize_genre (some "jazz") = "other" ∧
      process_data.normalize_genre (some "jazz") ≠
        analyze_visualize.normalize_genre (some "jazz") := by decide

/-- The variant strings present in `process_data.normalize_genre`'s table but
absent from `analyze_visualize.normalize_genre`'s. -/
def processOnlyVariants : List String :=
  ["hip hop soul", "alternative metal", "industrial metal", "art pop", "folk pop",
   "latin urban", "techno", "jazz", "classical"]

/-- C9 amended: the two `normalize_genre` functions agree on `None`, on the
empty string, and on every raw tag whose lowercase form contains none of the
variants that exist only in `process_data`'s table; they differ on tags that
reach those extra variants (for example `"jazz"`). -/
theorem normalize_genre_agree (g : Option String)
    (h : ∀ v ∈ processOnlyVariants, strContains (pyLower (g.getD "")) v = false) :
    process_data.normalize_genre g = analyze_visualize.normalize_genre g := by
  cases g with
  | none => rfl
  | some s =>
      simp only [Option.getD_some] at h
      by_cases he : s = ""
      · subst he; rfl
      · by_cases hu : s = "Unknown"
        · subst hu
          show process_data.normalize_genre (some "Unknown") =
            analyze_visualize.normalize_genre (some "Unknown")
          decide
        · simp only [process_data.normalize_genre, analyze_visualize.normalize_genre,
            if_neg he, if_neg (by simp [he, hu] : ¬(s = "" ∨ s = "Unknown"))]
          have h1 := h "hip hop soul" (by simp [processOnlyVariants])
          have h2 := h "alternative metal" (by simp [processOnlyVariants])
          have h3 := h "industrial metal" (by simp [processOnlyVariants])
          have h4 := h "art pop" (by simp [processOnlyVariants])
          have h5 := h "folk pop" (by simp [processOnlyVariants])
          have h6 := h "latin urban" (by simp [processOnlyVariants])
          have h7 := h "techno" (by simp [processOnlyVariants])
          have h8 := h "jazz" (by simp [processOnlyVariants])
          have h9 := h "classical" (by simp [processOnlyVariants])
          have b1 := beq_false_of_strContains_false h1
          have b2 := beq_false_of_strContains_false h2
          have b3 := beq_false_of_strContains_false h3
          have b4 := beq_false_of_strContains_false h4
          have b5 := beq_false_of_strContains_false h5
          have b6 := beq_false_of_strContains_false h6
          have b7 := beq_false_of_strContains_false h7
          have b8 := beq_false_of_strContains_false h8
          have b9 := beq_false_of_strContains_false h9
          simp only [process_data.mappings, analyze_visualize.mappings, firstGenre,
            matchesVariants, List.any_cons, List.any_nil,
            h1, h2, h3, h4, h5, h6, h7, h8, h9,
            b1, b2, b3, b4, b5, b6, b7, b8, b9,
            Bool.or_false, Bool.false_or, cond_false]

/-- Witness for the amended C9 at the tag `"rock"`. -/
theorem normalize_genre_agree_witness :
    (∀ v ∈ processOnlyVariants, strContains (pyLower ((some "rock").getD "")) v = false) ∧
      process_data.normalize_genre (some "rock") =
        analyze_visualize.normalize_genre (some "rock") :=
  ⟨by decide, normalize_genre_agree (some "rock") (by decide)⟩


/-! ## C6: frame effects of every operation -/

namespace gather_deezer

theorem storeTracksLoop_genres_grows (detect : Detect) (l : List TrackRec) (db : DB) :
    Grows db.genres (storeTracksLoop detect db l).1.genres := by
  induction l generalizing db with
  | nil => exact grows_refl _
  | cons t ts ih =>
      simp only [storeTracksLoop]
      exact grows_trans (storeTrackStep_genres detect db t) (ih _)

theorem storeTracksLoop_track_genres_grows (detect : Detect) (l : List TrackRec)
    (db : DB) : Grows db.track_genres (storeTracksLoop detect db l).1.track_genres := by
  induction l generalizing db with
  | nil => exact grows_refl _
  | cons t ts ih =>
      simp only [storeTracksLoop]
      exact grows_trans (storeTrackStep_track_genres detect db t) (ih _)

theorem storeTracksLoop_itunes (detect : Detect) (l : List TrackRec) (db : DB) :
    (storeTracksLoop detect db l).1.itunes_tracks = db.itunes_tracks := by
  induction l generalizing db with
  | nil => rfl
  | cons t ts ih =>
      simp only [storeTracksLoop]
      rw [ih, storeTrackStep_itunes]

theorem storeTracksLoop_stats (detect : Detect) (l : List TrackRec) (db : DB) :
    (storeTracksLoop detect db l).1.collaboration_stats = db.collaboration_stats := by
  induction l generalizing db with
  | nil => rfl
  | cons t ts ih =>
      simp only [storeTracksLoop]
      rw [ih, storeTrackStep_stats]

end gather_deezer

namespace gather_itunes

theorem store_itunes_track_frame (db : DB) (tid : Nat) (data : Option ItunesData) :
    (store_itunes_track db tid data).1.tracks = db.tracks ∧
      (store_itunes_track db tid data).1.genres = db.genres ∧
      (store_itunes_track db tid data).1.track_genres = db.track_genres ∧
      (store_itunes_track db tid data).1.collaboration_stats = db.collaboration_stats ∧
      Grows db.itunes_tracks (store_itunes_track db tid data).1.itunes_tracks := by
  cases data with
  | none => exact ⟨rfl, rfl, rfl, rfl, grows_refl _⟩
  | some d =>
      simp only [store_itunes_track]
      refine ⟨?_, ?_, ?_, ?_, ?_⟩
      · split <;> rfl
      · split <;> rfl
      · split <;> rfl
      · split <;> rfl
      · split
        · exact grows_refl _
        · exact grows_append _ _

end gather_itunes

namespace gather_musicbrainz

theorem assignGenreStep_tracks (f : Option String) (db : DB) (tid : Nat) (a : String) :
    (assignGenreStep f db tid a).1.tracks = db.tracks :=
  linkTrackToGenre_tracks db tid (resolveGenre f a)

theorem assignGenreStep_itunes (f : Option String) (db : DB) (tid : Nat) (a : String) :
    (assignGenreStep f db tid a).1.itunes_tracks = db.itunes_tracks :=
  linkTrackToGenre_itunes db tid (resolveGenre f a)

theorem assignGenreStep_stats (f : Option String) (db : DB) (tid : Nat) (a : String) :
    (assignGenreStep f db tid a).1.collaboration_stats = db.collaboration_stats :=
  linkTrackToGenre_stats db tid (resolveGenre f a)

theorem assignGenreStep_genres (f : Option String) (db : DB) (tid : Nat) (a : String) :
    Grows db.genres (assignGenreStep f db tid a).1.genres :=
  linkTrackToGenre_genres db tid (resolveGenre f a)

theorem assignGenreStep_track_genres (f : Option String) (db : DB) (tid : Nat)
    (a : String) : Grows db.track_genres (assignGenreStep f db tid a).1.track_genres :=
  linkTrackToGenre_track_genres db tid (resolveGenre f a)

theorem assignGenresLoop_frame (f : String → Option String) (l : List TrackRow)
    (db : DB) :
    (assignGenresLoop f db l).1.tracks = db.tracks ∧
      (assignGenresLoop f db l).1.itunes_tracks = db.itunes_tracks ∧
      (assignGenresLoop f db l).1.collaboration_stats = db.collaboration_stats ∧
      Grows db.genres (assignGenresLoop f db l).1.genres ∧
      Grows db.track_genres (assignGenresLoop f db l).1.track_genres := by
  induction l generalizing db with
  | nil => exact ⟨rfl, rfl, rfl, grows_refl _, grows_refl _⟩
  | cons t ts ih =>
      simp only [assignGenresLoop]
      obtain ⟨i1, i2, i3, i4, i5⟩ :=
        ih (assignGenreStep (f t.artist_name) db t.track_id t.artist_name).1
      refine ⟨?_, ?_, ?_, ?_, ?_⟩
      · rw [i1, assignGenreStep_tracks]
      · rw [i2, assignGenreStep_itunes]
      · rw [i3, assignGenreStep_stats]
      · exact grows_trans (assignGenreStep_genres _ db _ _) i4
      · exact grows_trans (assignGenreStep_track_genres _ db _ _) i5

end gather_musicbrainz

namespace process_data

theorem statsInsertLoop_frame (l : List (GroupKey × List Int)) (db : DB) :
    (statsInsertLoop db l).1.tracks = db.tracks ∧
      (statsInsertLoop db l).1.track_genres = db.track_genres ∧
      (statsInsertLoop db l).1.itunes_tracks = db.itunes_tracks ∧
      Grows db.genres (statsInsertLoop db l).1.genres := by
  induction l generalizing db with
  | nil => exact ⟨rfl, rfl, rfl, grows_refl _⟩
  | cons g gs ih =>
      simp only [statsInsertLoop]
      cases hf : db.genres.find? (fun r => r.genre_name == g.1.1) with
      | none =>
          simp only [hf]
          obtain ⟨i1, i2, i3, i4⟩ := ih _
          exact ⟨i1, i2, i3, grows_trans (grows_append _ _) i4⟩
      | some r =>
          simp only [hf]
          obtain ⟨i1, i2, i3, i4⟩ := ih _
          exact ⟨i1, i2, i3, i4⟩

theorem calculate_collaboration_stats_frame (db : DB) :
    (calculate_collaboration_stats db).1.tracks = db.tracks ∧
      (calculate_collaboration_stats db).1.track_genres = db.track_genres ∧
      (calculate_collaboration_stats db).1.itunes_tracks = db.itunes_tracks ∧
      Grows db.genres (calculate_collaboration_stats db).1.genres := by
  unfold calculate_collaboration_stats
  simp only [Conn.openDB, Conn.execWrite, Conn.commit, Conn.closeDB]
  split
  · exact ⟨rfl, rfl, rfl, grows_refl _⟩
  · exact statsInsertLoop_frame _ _

/-- Recomputation ignores the previous `collaboration_stats` contents: when
the join is nonempty (the commit path), the result is the same whatever
stats rows were stored before. -/
theorem calculate_collaboration_stats_truncates (db : DB) (s : List StatRow)
    (h : collabJoinRows db ≠ []) :
    calculate_collaboration_stats { db with collaboration_stats := s } =
      calculate_collaboration_stats db := by
  unfold calculate_collaboration_stats
  simp only [Conn.openDB, Conn.execWrite, Conn.commit, Conn.closeDB]
  rw [collabJoinRows_stats_irrel, collabJoinRows_stats_irrel]
  simp only [List.isEmpty_iff]
  split
  · exact absurd (by assumption) h
  · rfl

end process_data

namespace gather_census

theorem storeRegionsLoop_grows (l : List RegionRec) (db : RegionsDB) :
    Grows db.regions (storeRegionsLoop db l).1.regions := by
  induction l generalizing db with
  | nil => exact grows_refl _
  | cons r rs ih =>
      simp only [storeRegionsLoop]
      refine grows_trans ?_ (ih _)
      unfold storeRegionStep
      split
      · exact grows_refl _
      · exact grows_append _ _

end gather_census


/-- C6: no operation updates or deletes stored rows except the full
truncation of `collaboration_stats` inside `calculate_collaboration_stats`.
`store_tracks` only appends to `tracks`, `genres` and `track_genres` and
leaves the other tables equal; `store_itunes_track` only appends to
`itunes_tracks`; `assign_genres_to_tracks` only appends to `genres` and
`track_genres`; `store_regions` only appends to `regions`; and
`calculate_collaboration_stats` leaves `tracks`, `track_genres` and
`itunes_tracks` equal, only appends to `genres`, and recomputes
`collaboration_stats` from scratch: on the recomputation path its result is
independent of whatever stats rows were previously stored. -/
theorem frame_effects :
    (∀ (detect : gather_deezer.Detect) (debug : Bool) (db : DB)
        (ts : List gather_deezer.TrackRec),
      Grows db.tracks (gather_deezer.store_tracks detect debug db ts).1.tracks ∧
        Grows db.genres (gather_deezer.store_tracks detect debug db ts).1.genres ∧
        Grows db.track_genres
          (gather_deezer.store_tracks detect debug db ts).1.track_genres ∧
        (gather_deezer.store_tracks detect debug db ts).1.itunes_tracks =
          db.itunes_tracks ∧
        (gather_deezer.store_tracks detect debug db ts).1.collaboration_stats =
          db.collaboration_stats) ∧
      (∀ (db : DB) (tid : Nat) (data : Option gather_itunes.ItunesData),
        (gather_itunes.store_itunes_track db tid data).1.tracks = db.tracks ∧
          (gather_itunes.store_itunes_track db tid data).1.genres = db.genres ∧
          (gather_itunes.store_itunes_track db tid data).1.track_genres =
            db.track_genres ∧
          (gather_itunes.store_itunes_track db tid data).1.collaboration_stats =
            db.collaboration_stats ∧
          Grows db.itunes_tracks
            (gather_itunes.store_itunes_track db tid data).1.itunes_tracks) ∧
      (∀ (fetch : String → Option String) (debug : Bool) (db : DB),
        (gather_musicbrainz.assign_genres_to_tracks fetch debug db).1.tracks =
            db.tracks ∧
          (gather_musicbrainz.assign_genres_to_tracks fetch debug db).1.itunes_tracks =
            db.itunes_tracks ∧
          (gather_musicbrainz.assign_genres_to_tracks fetch debug
              db).1.collaboration_stats = db.collaboration_stats ∧
          Grows db.genres
            (gather_musicbrainz.assign_genres_to_tracks fetch debug db).1.genres ∧
          Grows db.track_genres
            (gather_musicbrainz.assign_genres_to_tracks fetch debug
              db).1.track_genres) ∧
      (∀ (db : gather_census.RegionsDB) (rs : List gather_census.RegionRec),
        Grows db.regions (gather_census.store_regions db rs).1.regions) ∧
      (∀ db : DB,
        (process_data.calculate_collaboration_stats db).1.tracks = db.tracks ∧
          (process_data.calculate_collaboration_stats db).1.track_genres =
            db.track_genres ∧
          (process_data.calculate_collaboration_stats db).1.itunes_tracks =
            db.itunes_tracks ∧
          Grows db.genres (process_data.calculate_collaboration_stats db).1.genres) ∧
      (∀ (db : DB) (s : List StatRow), process_data.collabJoinRows db ≠ [] →
        process_data.calculate_collaboration_stats
            { db with collaboration_stats := s } =
          process_data.calculate_collaboration_stats db) := by
  refine ⟨?_, ?_, ?_, ?_, ?_, ?_⟩
  · intro detect debug db ts
    exact ⟨gather_deezer.storeTracksLoop_tracks_grows detect _ db,
      gather_deezer.storeTracksLoop_genres_grows detect _ db,
      gather_deezer.storeTracksLoop_track_genres_grows detect _ db,
      gather_deezer.storeTracksLoop_itunes detect _ db,
      gather_deezer.storeTracksLoop_stats detect _ db⟩
  · intro db tid data
    exact gather_itunes.store_itunes_track_frame db tid data
  · intro fetch debug db
    obtain ⟨i1, i2, i3, i4, i5⟩ := gather_musicbrainz.assignGenresLoop_frame fetch
      (gather_musicbrainz.tracksWithoutGenres debug db) db
    exact ⟨i1, i2, i3, i4, i5⟩
  · intro db rs
    exact gather_census.storeRegionsLoop_grows _ db
  · intro db
    exact process_data.calculate_collaboration_stats_frame db
  · intro db s h
    exact process_data.calculate_collaboration_stats_truncates db s h

/-- A one-track database on which the recomputation path of
`calculate_collaboration_stats` is taken. -/
def dbOneTrack : DB :=
  { DB.empty with
    tracks := [⟨1, 10, "Song", "Artist", 200, 50, 0, none, none⟩],
    next_track_id := 2 }

/-- Witness for C6: on a concrete database the recomputation path discards
the previously stored stats rows. -/
theorem frame_effects_witness :
    process_data.collabJoinRows dbOneTrack ≠ [] ∧
      process_data.calculate_collaboration_stats
          { dbOneTrack with collaboration_stats := [⟨1, 1, 1, 2, 7, 7⟩] } =
        process_data.calculate_collaboration_stats dbOneTrack :=
  ⟨by decide, frame_effects.2.2.2.2.2 dbOneTrack [⟨1, 1, 1, 2, 7, 7⟩] (by decide)⟩


/-! ## C7: data-model invariants

Category names are unique, junction pairs are unique, and the stored numeric
measures (track popularity, i.e. the Deezer rank, and regional median
income) are non-negative.  Uniqueness is maintained unconditionally by the
insert-if-absent statements; non-negativity of the measures is preserved
whenever the incoming records carry non-negative measures (the Deezer mapping
defaults a missing rank to 0 and the stored value is taken verbatim from the
record).
-/

/-- Genre names are unique in the `genres` table. -/
def namesUnique (l : List GenreRow) : Prop :=
  l.Pairwise (fun a b => a.genre_name ≠ b.genre_name)

/-- `(track_id, genre_id)` pairs are unique in the junction table. -/
def pairsUnique (l : List TrackGenreRow) : Prop :=
  l.Pairwise (fun a b => ¬(a.track_id = b.track_id ∧ a.genre_id = b.genre_id))

/-- Stored popularity values (Deezer rank) are non-negative. -/
def popNonneg (l : List TrackRow) : Prop := ∀ t ∈ l, 0 ≤ t.popularity

/-- The data-model invariant of `music_collab.db`. -/
def Inv (db : DB) : Prop :=
  namesUnique db.genres ∧ pairsUnique db.track_genres ∧ popNonneg db.tracks

/-- The data-model invariant of `music_income.db`: stored median incomes are
non-negative. -/
def RegionsInv (db : gather_census.RegionsDB) : Prop :=
  ∀ r ∈ db.regions, 0 ≤ r.median_income

instance (db : DB) : Decidable (Inv db) := by
  unfold Inv namesUnique pairsUnique popNonneg
  infer_instance

instance (db : gather_census.RegionsDB) : Decidable (RegionsInv db) := by
  unfold RegionsInv
  infer_instance

theorem namesUnique_append {l : List GenreRow} (row : GenreRow)
    (h : namesUnique l) (hnew : ∀ g ∈ l, g.genre_name ≠ row.genre_name) :
    namesUnique (l ++ [row]) := by
  unfold namesUnique at *
  rw [List.pairwise_append]
  refine ⟨h, List.pairwise_singleton _ _, ?_⟩
  intro a ha b hb
  rw [List.mem_singleton] at hb
  subst hb
  exact hnew a ha

theorem pairsUnique_append {l : List TrackGenreRow} (row : TrackGenreRow)
    (h : pairsUnique l) (hnew : ∀ tg ∈ l, ¬(tg.track_id = row.track_id ∧
      tg.genre_id = row.genre_id)) :
    pairsUnique (l ++ [row]) := by
  unfold pairsUnique at *
  rw [List.pairwise_append]
  refine ⟨h, List.pairwise_singleton _ _, ?_⟩
  intro a ha b hb
  rw [List.mem_singleton] at hb
  subst hb
  exact hnew a ha

theorem insertGenreIfAbsent_namesUnique (db : DB) (n : String)
    (h : namesUnique db.genres) : namesUnique (insertGenreIfAbsent db n).genres := by
  unfold insertGenreIfAbsent
  split
  · exact h
  · next hany =>
      apply namesUnique_append _ h
      intro g hg
      have hfalse : (g.genre_name == n) = false := by
        rcases hb : (g.genre_name == n) with _ | _
        · rfl
        · exact absurd (List.any_eq_true.mpr ⟨g, hg, hb⟩) hany
      simpa using hfalse

theorem insertJunction_pairsUnique (db : DB) (tid gid : Nat)
    (h : pairsUnique db.track_genres) :
    pairsUnique (insertJunction db tid gid).1.track_genres := by
  unfold insertJunction
  split
  · exact h
  · next hany =>
      apply pairsUnique_append _ h
      intro tg htg
      have hfalse : (tg.track_id == tid && tg.genre_id == gid) = false := by
        rcases hb : (tg.track_id == tid && tg.genre_id == gid) with _ | _
        · rfl
        · exact absurd (List.any_eq_true.mpr ⟨tg, htg, hb⟩) hany
      simp only [Bool.and_eq_false_iff, beq_eq_false_iff_ne, ne_eq] at hfalse
      intro hcon
      rcases hfalse with hf | hf
      · exact hf hcon.1
      · exact hf hcon.2

theorem linkTrackToGenre_Inv (db : DB) (tid : Nat) (g : String) (h : Inv db) :
    Inv (linkTrackToGenre db tid g).1 := by
  unfold linkTrackToGenre
  cases hf : (insertGenreIfAbsent db g).genres.find? (fun r => r.genre_name == g) with
  | none =>
      simp only [hf]
      refine ⟨insertGenreIfAbsent_namesUnique db g h.1, ?_, ?_⟩
      · rw [insertGenreIfAbsent_track_genres]
        exact h.2.1
      · rw [insertGenreIfAbsent_tracks]
        exact h.2.2
  | some r =>
      simp only [hf]
      refine ⟨?_, ?_, ?_⟩
      · rw [insertJunction_genres]
        exact insertGenreIfAbsent_namesUnique db g h.1
      · apply insertJunction_pairsUnique
        rw [insertGenreIfAbsent_track_genres]
        exact h.2.1
      · rw [insertJunction_tracks, insertGenreIfAbsent_tracks]
        exact h.2.2


namespace gather_deezer

theorem storeTrackStep_Inv (detect : Detect) (db : DB) (t : TrackRec)
    (h : Inv db) (hp : 0 ≤ t.popularity) : Inv (storeTrackStep detect db t).1 := by
  unfold storeTrackStep
  split
  · exact h
  · have hmid : Inv { db with
        tracks := db.tracks ++
          [⟨db.next_track_id, t.deezer_id, t.title, t.artist_name, t.duration,
            t.popularity, (detect t.title).1, (detect t.title).2.1,
            (detect t.title).2.2⟩],
        next_track_id := db.next_track_id + 1 } := by
      refine ⟨h.1, h.2.1, ?_⟩
      intro tr htr
      rcases List.mem_append.mp htr with hold | hnew
      · exact h.2.2 tr hold
      · rw [List.mem_singleton] at hnew
        subst hnew
        exact hp
    cases t.genre with
    | none => exact hmid
    | some g => exact linkTrackToGenre_Inv _ _ _ hmid

theorem storeTracksLoop_Inv (detect : Detect) (l : List TrackRec) (db : DB)
    (h : Inv db) (hp : ∀ t ∈ l, 0 ≤ t.popularity) :
    Inv (storeTracksLoop detect db l).1 := by
  induction l generalizing db with
  | nil => exact h
  | cons t ts ih =>
      simp only [storeTracksLoop]
      exact ih _ (storeTrackStep_Inv detect db t h (hp t (List.mem_cons_self _ _)))
        (fun u hu => hp u (List.mem_cons_of_mem _ hu))

end gather_deezer

namespace gather_musicbrainz

theorem assignGenresLoop_Inv (f : String → Option String) (l : List TrackRow)
    (db : DB) (h : Inv db) : Inv (assignGenresLoop f db l).1 := by
  induction l generalizing db with
  | nil => exact h
  | cons t ts ih =>
      simp only [assignGenresLoop]
      exact ih _ (linkTrackToGenre_Inv db t.track_id _ h)

end gather_musicbrainz

namespace process_data

theorem statsInsertLoop_Inv (l : List (GroupKey × List Int)) (db : DB)
    (h : Inv db) : Inv (statsInsertLoop db l).1 := by
  induction l generalizing db with
  | nil => exact h
  | cons g gs ih =>
      simp only [statsInsertLoop]
      cases hf : db.genres.find? (fun r => r.genre_name == g.1.1) with
      | none =>
          simp only [hf]
          apply ih
          refine ⟨?_, h.2.1, h.2.2⟩
          apply namesUnique_append _ h.1
          intro gr hgr
          have := List.find?_eq_none.mp hf gr hgr
          simpa using this
      | some r =>
          simp only [hf]
          exact ih _ h

theorem calculate_collaboration_stats_Inv (db : DB) (h : Inv db) :
    Inv (calculate_collaboration_stats db).1 := by
  unfold calculate_collaboration_stats
  simp only [Conn.openDB, Conn.execWrite, Conn.commit, Conn.closeDB]
  split
  · exact h
  · exact statsInsertLoop_Inv _ _ ⟨h.1, h.2.1, h.2.2⟩

end process_data

namespace gather_census

theorem storeRegionsLoop_Inv (l : List RegionRec) (db : RegionsDB)
    (h : RegionsInv db) (hinc : ∀ r ∈ l, 0 ≤ r.median_income) :
    RegionsInv (storeRegionsLoop db l).1 := by
  induction l generalizing db with
  | nil => exact h
  | cons r rs ih =>
      simp only [storeRegionsLoop]
      apply ih
      · unfold storeRegionStep
        split
        · exact h
        · intro row hrow
          rcases List.mem_append.mp hrow with hold | hnew
          · exact h row hold
          · rw [List.mem_singleton] at hnew
            subst hnew
            exact hinc r (List.mem_cons_self _ _)
      · exact fun u hu => hinc u (List.mem_cons_of_mem _ hu)

end gather_census

/-- C7: every operation preserves the data-model invariants.  Genre names
stay unique, `(track_id, genre_id)` junction pairs stay unique, and the
stored numeric measures stay non-negative provided the incoming records
carry non-negative measures (popularity for Deezer records, median income
for Census records). -/
theorem invariants_preserved :
    (∀ (detect : gather_deezer.Detect) (debug : Bool) (db : DB)
        (ts : List gather_deezer.TrackRec), Inv db →
      (∀ t ∈ ts, 0 ≤ t.popularity) →
      Inv (gather_deezer.store_tracks detect debug db ts).1) ∧
      (∀ (db : DB) (tid : Nat) (data : Option gather_itunes.ItunesData), Inv db →
        Inv (gather_itunes.store_itunes_track db tid data).1) ∧
      (∀ (fetch : String → Option String) (debug : Bool) (db : DB), Inv db →
        Inv (gather_musicbrainz.assign_genres_to_tracks fetch debug db).1) ∧
      (∀ db : DB, Inv db → Inv (process_data.calculate_collaboration_stats db).1) ∧
      (∀ (db : gather_census.RegionsDB) (rs : List gather_census.RegionRec),
        RegionsInv db → (∀ r ∈ rs, 0 ≤ r.median_income) →
        RegionsInv (gather_census.store_regions db rs).1) := by
  refine ⟨?_, ?_, ?_, ?_, ?_⟩
  · intro detect debug db ts h hp
    exact gather_deezer.storeTracksLoop_Inv detect _ db h
      (fun t ht => hp t (List.take_subset _ _ ht))
  · intro db tid data h
    obtain ⟨f1, f2, f3, f4, f5⟩ := gather_itunes.store_itunes_track_frame db tid data
    refine ⟨?_, ?_, ?_⟩
    · rw [f2]; exact h.1
    · rw [f3]; exact h.2.1
    · rw [f1]; exact h.2.2
  · intro fetch debug db h
    exact gather_musicbrainz.assignGenresLoop_Inv fetch _ db h
  · intro db h
    exact process_data.calculate_collaboration_stats_Inv db h
  · intro db rs h hinc
    exact gather_census.storeRegionsLoop_Inv _ db h
      (fun r hr => hinc r (List.drop_subset _ _ ((List.take_subset _ _) hr)))

/-- An empty `music_income.db`. -/
def regionsDbEmpty : gather_census.RegionsDB := ⟨[], 1⟩

/-- Witness for C7 at concrete inputs: a one-track database with a
non-negative record, and a region record with non-negative income. -/
theorem invariants_preserved_witness :
    (Inv dbOneTrack ∧
        (∀ t ∈ [(⟨11, "T", "A", 100, 5, none⟩ : gather_deezer.TrackRec)],
          0 ≤ t.popularity)) ∧
      Inv (gather_deezer.store_tracks (fun _ => (0, none, none)) true dbOneTrack
        [⟨11, "T", "A", 100, 5, none⟩]).1 ∧
      Inv (gather_itunes.store_itunes_track dbOneTrack 1 none).1 ∧
      Inv (gather_musicbrainz.assign_genres_to_tracks (fun _ => none) true
        dbOneTrack).1 ∧
      Inv (process_data.calculate_collaboration_stats dbOneTrack).1 ∧
      RegionsInv (gather_census.store_regions regionsDbEmpty
        [⟨"Michigan", "26", 59584, 10000000⟩]).1 :=
  ⟨⟨by decide, by decide⟩,
   invariants_preserved.1 (fun _ => (0, none, none)) true dbOneTrack _
     (by decide) (by decide),
   invariants_preserved.2.1 dbOneTrack 1 none (by decide),
   invariants_preserved.2.2.1 (fun _ => none) true dbOneTrack (by decide),
   invariants_preserved.2.2.2.1 dbOneTrack (by decide),
   invariants_preserved.2.2.2.2 regionsDbEmpty _ (by decide) (by decide)⟩

end SI201
